import Mathlib

/-
Verification of the OceanAi batch email-processing pipeline.

Shallow embedding of the Python sources:
  src/core/processing.py  (completion client, per-item enricher, batch pipeline, result store)
  src/core/dashboard.py   (priority scorer)
  src/core/agent.py       (ad hoc completion client for ask / reply-draft)
  src/core/prompts.py     (prompt store with built-in defaults)
  src/core/drafts.py      (draft store)

External effects (HTTP responses, the filesystem, the stdlib JSON parser) are
passed in explicitly: an HTTP exchange is a function from attempt number to an
Outcome, a file is a FileState, and json.loads is an abstract
parse : String -> Option Json parameter.
-/

namespace OceanAi

/-- JSON-like values: the results of json.loads and the contents of the flat stores. -/
inductive Json where
  | null
  | bool (b : Bool)
  | num (n : Int)
  | str (s : String)
  | arr (elems : List Json)
  | obj (fields : List (String × Json))

/-- Association lookup on the field list of a JSON object; models Python dict.get. -/
def lookupStr : List (String × Json) → String → Option Json
  | [], _ => none
  | (k, v) :: rest, key => if k == key then some v else lookupStr rest key

/-- Field access on a JSON value: some value for a present key of an object, none otherwise. -/
def getKey (j : Json) (k : String) : Option Json :=
  match j with
  | .obj fields => lookupStr fields k
  | _ => none

/-- Characters stripped by Python str.strip() for ASCII input. -/
def isPySpace (c : Char) : Bool :=
  c == ' ' || c == '\t' || c == '\n' || c == '\r' || c == '\x0b' || c == '\x0c'

/-- Python str.strip(): drop leading and trailing whitespace. -/
def pyStrip (s : String) : String :=
  String.mk (((s.toList.dropWhile isPySpace).reverse.dropWhile isPySpace).reverse)

/-- Boolean test that the first list is a leading segment of the second. -/
def leadsList : List Char → List Char → Bool
  | [], _ => true
  | _ :: _, [] => false
  | a :: as, b :: bs => a == b && leadsList as bs

/-- Worker for strContains: does the needle occur at some position of the haystack. -/
def strContainsAux : List Char → List Char → Bool
  | [], n => n.isEmpty
  | h :: t, n => leadsList n (h :: t) || strContainsAux t n

/-- Python substring operator: needle in hay. -/
def strContains (hay needle : String) : Bool :=
  strContainsAux hay.toList needle.toList

/-- Python str.lower() for ASCII input: lower-case every character. -/
def pyLower (s : String) : String :=
  String.mk (s.toList.map Char.toLower)

/-- Boolean test that pre is a leading segment of s; models Python str.startswith. -/
def pyStartsWith (s pre : String) : Bool :=
  leadsList pre.toList s.toList

/-- Fuel-indexed worker for pyReplace; fuel bounds the number of characters consumed. -/
def pyReplaceFuel : Nat → List Char → List Char → List Char → List Char
  | 0, s, _, _ => s
  | fuel + 1, s, old, new =>
    match s with
    | [] => []
    | h :: t =>
      if !old.isEmpty && leadsList old (h :: t)
      then new ++ pyReplaceFuel fuel (List.drop (old.length - 1) t) old new
      else h :: pyReplaceFuel fuel t old new

/-- Python str.replace(old, new) for a non-empty pattern: replace every non-overlapping
occurrence, scanning left to right. -/
def pyReplace (s old new : String) : String :=
  String.mk (pyReplaceFuel s.toList.length s.toList old.toList new.toList)

/-- Line-boundary characters recognised by Python str.splitlines. -/
def isLineBreakChar (c : Char) : Bool :=
  c == '\n' || c == '\r' || c == '\x0b' || c == '\x0c' ||
  c == (Char.ofNat 0x1c) || c == (Char.ofNat 0x1d) || c == (Char.ofNat 0x1e) ||
  c == (Char.ofNat 0x85) || c == (Char.ofNat 0x2028) || c == (Char.ofNat 0x2029)

/-- Text of the first line of a string: everything before the first line boundary. -/
def first_line (s : String) : String :=
  String.mk (s.toList.takeWhile (fun c => !isLineBreakChar c))

/-- Python s.splitlines()[0] as a fallible lookup: the empty string has no lines at all
(splitlines returns an empty list and indexing raises IndexError). -/
def splitlinesHead (s : String) : Option String :=
  if s.isEmpty then none else some (first_line s)

/-- Raw email record as read from the mock inbox (src/core/ingest.py). -/
structure Email where
  id : Int
  sender : String
  subject : String
  timestamp : String
  body : String
deriving DecidableEq

/-- Enriched record built by process_single_email in src/core/processing.py. -/
structure EnrichedRecord where
  id : Int
  sender : String
  subject : String
  timestamp : String
  body : String
  category : String
  actions : Json
  status : String

namespace Dashboard

/-- Counting of tasks in the extracted actions structure (dashboard.py, _count_actions):
length of a structured tasks list inside an object, length of a bare list, otherwise 0. -/
def count_actions : Json → Nat
  | .obj fields =>
      match lookupStr fields "tasks" with
      | some (.arr ts) => ts.length
      | _ => 0
  | .arr xs => xs.length
  | _ => 0

/-- Keyword lists of _compute_priority_row in src/core/dashboard.py. -/
def urgent_keywords : List String := ["urgent", "asap", "immediately", "critical", "high priority"]

/-- Deadline keyword list of _compute_priority_row. -/
def deadline_keywords : List String := ["deadline", "by ", "before ", "due ", "last date", "submit"]

/-- Meeting keyword list of _compute_priority_row. -/
def meeting_keywords : List String := ["meeting", "call", "discussion", "review", "planning"]

/-- Score accumulation of _compute_priority_row (dashboard.py lines 43-68), with the
sequential score updates written as successive rebindings exactly as in the source.
Missing subject, body or category fields arrive as none and default to the empty string. -/
def priority_score (category subject body : Option String) (num_actions : Nat) : Int :=
  let cat := pyLower (category.getD "")
  let text := pyLower ((subject.getD "") ++ " " ++ (body.getD ""))
  let score : Int := 0
  let score := if strContains cat "important" then score + 3 else score
  let score := if strContains cat "to-do" || strContains cat "todo" then score + 3 else score
  let score := if strContains cat "spam" || strContains cat "newsletter" then score - 1 else score
  let score := if urgent_keywords.any (fun k => strContains text k) then score + 3 else score
  let score := if deadline_keywords.any (fun k => strContains text k) then score + 2 else score
  let score := if meeting_keywords.any (fun k => strContains text k) then score + 1 else score
  let score := if 0 < num_actions then score + (min 3 num_actions : Nat) else score
  score

/-- Thresholding of _compute_priority_row (dashboard.py lines 70-75). -/
def priority_label (score : Int) : String :=
  if 7 ≤ score then "HIGH" else if 4 ≤ score then "MEDIUM" else "LOW"

/-- Full result of _compute_priority_row: the score and its label. -/
def compute_priority_row (category subject body : Option String) (num_actions : Nat) :
    Int × String :=
  (priority_score category subject body num_actions,
   priority_label (priority_score category subject body num_actions))

end Dashboard

namespace Spec

/-- Priority score as the specification states it: a plain sum of the seven contributions,
with the action count always contributing min 3 count. -/
def specScore (category subject body : Option String) (actions : Json) : Int :=
  let cat := pyLower (category.getD "")
  let text := pyLower ((subject.getD "") ++ " " ++ (body.getD ""))
  (if strContains cat "important" then 3 else 0)
  + (if strContains cat "to-do" || strContains cat "todo" then 3 else 0)
  + (if strContains cat "spam" || strContains cat "newsletter" then -1 else 0)
  + (if Dashboard.urgent_keywords.any (fun k => strContains text k) then 3 else 0)
  + (if Dashboard.deadline_keywords.any (fun k => strContains text k) then 2 else 0)
  + (if Dashboard.meeting_keywords.any (fun k => strContains text k) then 1 else 0)
  + (min 3 (Dashboard.count_actions actions) : Nat)

/-- Priority label as the specification states it. -/
def specLabel (score : Int) : String :=
  if 7 ≤ score then "HIGH" else if 4 ≤ score then "MEDIUM" else "LOW"

end Spec

/-- Scenario input for the scorer: an object holding a two-element tasks list. -/
def twoTasksJson : Json :=
  Json.obj [("tasks", Json.arr [Json.obj [("task", Json.str "submit report"),
                                          ("deadline", Json.str "Friday")],
                                Json.obj [("task", Json.str "follow up"),
                                          ("deadline", Json.null)]])]

/-- Outcome of one outbound HTTP request to the completion service: a 200 response
carrying the message content, a non-200 response carrying status code and body text,
or a connection timeout. -/
inductive Outcome where
  | success (content : String)
  | httpError (status : Nat) (bodyText : String)
  | timeout
deriving DecidableEq

/-- Observable behaviour of one invocation of a completion client: the returned string
or the raised error message, the number of outbound requests made, and the sequence of
sleep durations (in seconds) performed between attempts. -/
structure CallTrace where
  result : Except String String
  requests : Nat
  sleeps : List Nat

namespace Processing

/-- Completion client of src/core/processing.py (call_openrouter, lines 31-66): a
two-attempt loop. On 200 it returns the stripped content; on 429 it sleeps 2s and
retries; on any other status it raises RuntimeError "API Error <status>" immediately;
on a timeout of the first attempt it sleeps 1s and retries, and of the second attempt
it raises RuntimeError "Timeout"; two rate-limited attempts exhaust the loop and raise
RuntimeError "Failed after retries". The environment r gives the outcome of each
attempt. -/
def call_openrouter (r : Nat → Outcome) : CallTrace :=
  match r 0 with
  | .success c => ⟨.ok (pyStrip c), 1, []⟩
  | .httpError s _ =>
    if s == 429 then
      match r 1 with
      | .success c => ⟨.ok (pyStrip c), 2, [2]⟩
      | .httpError s2 _ =>
        if s2 == 429 then ⟨.error "Failed after retries", 2, [2, 2]⟩
        else ⟨.error ("API Error " ++ toString s2), 2, [2]⟩
      | .timeout => ⟨.error "Timeout", 2, [2]⟩
    else ⟨.error ("API Error " ++ toString s), 1, []⟩
  | .timeout =>
    match r 1 with
    | .success c => ⟨.ok (pyStrip c), 2, [1]⟩
    | .httpError s2 _ =>
      if s2 == 429 then ⟨.error "Failed after retries", 2, [1, 2]⟩
      else ⟨.error ("API Error " ++ toString s2), 2, [1]⟩
    | .timeout => ⟨.error "Timeout", 2, [1]⟩

/-- Categorization step (categorize_email, processing.py lines 74-88) applied to the
result of its completion call: the first line of the output, stripped. Python evaluates
out.splitlines()[0], which raises IndexError on an empty output; the raised message is
the one str(IndexError(...)) produces. -/
def categorize_email (callResult : Except String String) : Except String String :=
  match callResult with
  | .error e => .error e
  | .ok out =>
    match splitlinesHead out with
    | none => .error "list index out of range"
    | some l => .ok (pyStrip l)

/-- Cleaning and parsing step of extract_actions (processing.py lines 110-119): strip,
drop code-fence markers when the text starts with one, then attempt a JSON parse,
keeping the cleaned raw text verbatim when the parse fails. -/
def clean_actions (parse : String → Option Json) (out : String) : Json :=
  let raw := pyStrip out
  let raw := if pyStartsWith raw "```"
             then pyStrip (pyReplace (pyReplace raw "```json" "") "```" "")
             else raw
  match parse raw with
  | some j => j
  | none => .str raw

/-- Action-extraction step (extract_actions, processing.py lines 96-119) applied to the
result of its completion call. The try/except around json.loads is internal to this
function, so a parse failure is not an error. -/
def extract_actions (parse : String → Option Json) (callResult : Except String String) :
    Except String Json :=
  match callResult with
  | .error e => .error e
  | .ok out => .ok (clean_actions parse out)

/-- Per-item enricher (process_single_email, processing.py lines 127-161). The outcomes
of the two completion calls are passed in as catCall and actCall; parse is json.loads.
The function is total: every exception from the two steps is converted into a record
with status error, category Error and a diagnostic actions string. -/
def process_single_email (email : Email) (catCall actCall : Except String String)
    (parse : String → Option Json) : EnrichedRecord :=
  match categorize_email catCall with
  | .error e =>
    { id := email.id, sender := email.sender, subject := email.subject,
      timestamp := email.timestamp, body := email.body,
      category := "Error", actions := .str ("Processing failed: " ++ e),
      status := "error" }
  | .ok category =>
    match extract_actions parse actCall with
    | .error e =>
      { id := email.id, sender := email.sender, subject := email.subject,
        timestamp := email.timestamp, body := email.body,
        category := "Error", actions := .str ("Processing failed: " ++ e),
        status := "error" }
    | .ok actions =>
      { id := email.id, sender := email.sender, subject := email.subject,
        timestamp := email.timestamp, body := email.body,
        category := category, actions := actions,
        status := "success" }

end Processing

/-- State of a persisted flat file: absent, or present with some raw content. -/
inductive FileState where
  | missing
  | present (content : String)

namespace Processing

/-- Result-store reader (load_processed, processing.py lines 175-186): an absent file
and a blank file yield an empty list; otherwise the stripped content is parsed, and a
parse failure (json.JSONDecodeError) is caught and yields an empty list. -/
def load_processed (parse : String → Option Json) : FileState → Json
  | .missing => .arr []
  | .present c =>
    let content := pyStrip c
    if content == "" then .arr []
    else
      match parse content with
      | some j => j
      | none => .arr []

end Processing

namespace Drafts

/-- Draft-store reader (load_drafts, drafts.py lines 9-16): an absent file yields an
empty list, and any exception while reading or parsing is caught and yields an empty
list; a parse failure is the parse returning none. -/
def load_drafts (parse : String → Option Json) : FileState → Json
  | .missing => .arr []
  | .present c =>
    match parse c with
    | some j => j
    | none => .arr []

end Drafts

namespace Prompts

/-- Built-in default prompt set (DEFAULT_PROMPTS, src/core/prompts.py lines 4-20). -/
def DEFAULT_PROMPTS : Json :=
  Json.obj
    [("categorization_prompt", Json.str
        ("You are an email categorization assistant. " ++
         "Categorize this email into one of these categories: Important, Newsletter, Spam, To-Do. " ++
         "To-Do emails must include a direct request requiring user action. " ++
         "Reply ONLY with the category name.")),
     ("action_item_prompt", Json.str
        ("Extract all action items and deadlines from this email. Respond in JSON as a list under \x27tasks\x27: " ++
         "[\x7b\"task\": \"...\", \"deadline\": \"...\"\x7d]. If there is no explicit deadline, set \"deadline\": null.")),
     ("auto_reply_prompt", Json.str
        ("You write polite, concise professional replies. Draft a reply to this email based on the user\x27s tone: " ++
         "friendly but professional. If it is a meeting request, ask for an agenda and confirm time. " ++
         "Respond with Subject and Body in a clearly marked format."))]

/-- Prompt-store reader (load_prompts, prompts.py lines 25-29): when the persisted file
exists its parsed content is returned verbatim, otherwise a copy of the defaults. The
argument is the parsed content of the file when it exists. -/
def load_prompts : Option Json → Json
  | some j => j
  | none => DEFAULT_PROMPTS

end Prompts

namespace Agent

/-- Completion client of src/core/agent.py (call_openrouter, lines 12-28), used by the
ad hoc single-item operations ask_grok and generate_reply_draft: a single request with
no retry loop and no timeout parameter. A 200 response returns the stripped content;
any other status raises RuntimeError "OpenRouter Error <status>: <body>"; an unhandled
connection failure propagates as-is. -/
def call_openrouter (r : Nat → Outcome) : CallTrace :=
  match r 0 with
  | .success c => ⟨.ok (pyStrip c), 1, []⟩
  | .httpError s b => ⟨.error ("OpenRouter Error " ++ toString s ++ ": " ++ b), 1, []⟩
  | .timeout => ⟨.error "ConnectionError", 1, []⟩

end Agent

/-- Observable result of one batch run (run_ingestion_pipeline, processing.py
lines 194-255) against a result store whose prior content is store0. -/
structure PipelineResult where
  result : Except String (List EnrichedRecord)
  save_called : Bool
  store_after : List EnrichedRecord
  items_processed : Nat

namespace Processing

/-- Batch pipeline (run_ingestion_pipeline, processing.py lines 194-255). The loaded
inbox is emails; arrival is the order in which the worker pool delivers completed items
to the accumulator (a permutation of emails on an uninterrupted run); catCall and
actCall give each email its two completion-call outcomes; store0 is the prior content
of the result store. An empty inbox raises RuntimeError before any per-item work and
before any store write; otherwise every item is enriched, the accumulator is sorted by
id once at the end, and the sorted batch is persisted via save_processed and returned. -/
def run_ingestion_pipeline (emails arrival : List Email)
    (catCall actCall : Email → Except String String) (parse : String → Option Json)
    (store0 : List EnrichedRecord) : PipelineResult :=
  if emails.isEmpty then
    { result := .error "No emails found. Put data/mock_inbox.json first.",
      save_called := false, store_after := store0, items_processed := 0 }
  else
    let processed := arrival.map (fun e => process_single_email e (catCall e) (actCall e) parse)
    let sorted := processed.mergeSort (fun a b => a.id ≤ b.id)
    { result := .ok sorted, save_called := true, store_after := sorted,
      items_processed := arrival.length }

end Processing

/-- Parser stub representing json.loads on input it cannot parse: always fails. -/
def parseNone : String → Option Json := fun _ => none

/-- Parser stub that recognises exactly the text of an empty JSON array. -/
def parse0 : String → Option Json := fun s => if s == "[]" then some (Json.arr []) else none

/-- Concrete email record used in scenario instantiations. -/
def email0 : Email :=
  ⟨1, "alice@example.com", "Quarterly report", "2024-01-01T09:00:00", "See attachment"⟩

/-- Concrete email with id 2, arriving first in the input batch of the batch scenario. -/
def emailA : Email := ⟨2, "bob@example.com", "Planning call", "2024-01-02T10:00:00", "agenda"⟩

/-- Concrete email with id 1, arriving second in the input batch of the batch scenario. -/
def emailB : Email := ⟨1, "carol@example.com", "Newsletter", "2024-01-03T11:00:00", "news"⟩

/-- Environment giving every email a successful categorization call. -/
def okCall : Email → Except String String := fun _ => Except.ok "Work"

/-- Environment giving every email a successful action-extraction call. -/
def okActions : Email → Except String String := fun _ => Except.ok "[]"

/-- Response environment: the first request is rate-limited with HTTP 429, every later
request succeeds. -/
def resp429then200 : Nat → Outcome :=
  fun n => match n with
    | 0 => Outcome.httpError 429 "rate limited"
    | _ => Outcome.success "hello"

/-- Response environment: every request fails with HTTP 500 and a body text. -/
def resp500 : Nat → Outcome := fun _ => Outcome.httpError 500 "Internal Server Error"

/-- Parsed content of a persisted prompts file that holds only one of the three keys. -/
def partialPromptsJson : Json := Json.obj [("categorization_prompt", Json.str "Summarize")]

/-- Prefix property of leadsList: a list is a leading segment of itself followed by
anything. -/
lemma leadsList_append (n t : List Char) : leadsList n (n ++ t) = true := by
  induction n with
  | nil => rfl
  | cons a as ih => simp [leadsList, ih]

/-- Containment property: a needle occurs in any character list that ends with it. -/
lemma strContainsAux_append (p n : List Char) : strContainsAux (p ++ n) n = true := by
  induction p with
  | nil =>
    cases n with
    | nil => rfl
    | cons h t =>
      have hl : leadsList (h :: t) (h :: t) = true := by
        simpa using leadsList_append (h :: t) []
      simp [strContainsAux, hl]
  | cons a as ih => simp [strContainsAux, ih]

/-- Containment property on strings: any string contains its own suffix. -/
lemma strContains_append_right (p e : String) : strContains (p ++ e) e = true := by
  have h : (p ++ e).data = p.data ++ e.data := String.data_append p e
  simp only [strContains, String.toList, h]
  exact strContainsAux_append p.data e.data

/-- Non-emptiness of every enricher diagnostic: the fixed prefix makes the string
non-empty whatever the embedded error text is. -/
lemma prepend_diag_ne_empty (e : String) : ("Processing failed: " ++ e) ≠ "" := by
  intro h
  have h2 := congrArg String.data h
  simp at h2

/-- Frame property of the enricher: both of its branches copy the five email fields
unchanged. -/
lemma process_single_email_fields (email : Email) (catCall actCall : Except String String)
    (parse : String → Option Json) :
    (Processing.process_single_email email catCall actCall parse).id = email.id ∧
    (Processing.process_single_email email catCall actCall parse).sender = email.sender ∧
    (Processing.process_single_email email catCall actCall parse).subject = email.subject ∧
    (Processing.process_single_email email catCall actCall parse).timestamp = email.timestamp ∧
    (Processing.process_single_email email catCall actCall parse).body = email.body := by
  rcases h : Processing.categorize_email catCall with e | cat
  · simp [Processing.process_single_email, h]
  · rcases h2 : Processing.extract_actions parse actCall with e2 | acts <;>
      simp [Processing.process_single_email, h, h2]

/-- Claim C1: for every non-empty input batch, run_ingestion_pipeline returns a
collection whose id sequence is sorted ascending and whose multiset of ids equals the
input batch's multiset of ids, whatever order the worker pool delivers completed items
in; the sort by id is applied once, after all items are collected, and the sorted
result is both persisted to the store and returned. -/
theorem batch_sorted_and_id_preserving :
    ∀ (emails arrival : List Email) (catCall actCall : Email → Except String String)
      (parse : String → Option Json) (store0 : List EnrichedRecord),
      arrival.Perm emails → emails ≠ [] →
      ∃ out : List EnrichedRecord,
        (Processing.run_ingestion_pipeline emails arrival catCall actCall parse store0).result
            = .ok out ∧
        out.Pairwise (fun a b => a.id ≤ b.id) ∧
        (out.map (fun r => r.id)).Perm (emails.map (fun e => e.id)) ∧
        (Processing.run_ingestion_pipeline emails arrival catCall actCall parse store0).store_after
            = out ∧
        (Processing.run_ingestion_pipeline emails arrival catCall actCall parse store0).save_called
            = true := by
  intro emails arrival catCall actCall parse store0 hperm hne
  have hempty : emails.isEmpty = false := by simpa using hne
  have key : Processing.run_ingestion_pipeline emails arrival catCall actCall parse store0 =
      { result := .ok ((arrival.map
            (fun e => Processing.process_single_email e (catCall e) (actCall e) parse)).mergeSort
              (fun a b => a.id ≤ b.id)),
        save_called := true,
        store_after := (arrival.map
            (fun e => Processing.process_single_email e (catCall e) (actCall e) parse)).mergeSort
              (fun a b => a.id ≤ b.id),
        items_processed := arrival.length } := by
    simp [Processing.run_ingestion_pipeline, hempty]
  refine ⟨_, by rw [key], ?_, ?_, by rw [key], by rw [key]⟩
  · have htrans : ∀ a b c : EnrichedRecord,
        (fun a b : EnrichedRecord => (decide (a.id ≤ b.id))) a b →
        (fun a b : EnrichedRecord => (decide (a.id ≤ b.id))) b c →
        (fun a b : EnrichedRecord => (decide (a.id ≤ b.id))) a c := by
      intro a b c hab hbc
      simp only [decide_eq_true_eq] at *
      exact le_trans hab hbc
    have htotal : ∀ a b : EnrichedRecord,
        ((fun a b : EnrichedRecord => (decide (a.id ≤ b.id))) a b ||
         (fun a b : EnrichedRecord => (decide (a.id ≤ b.id))) b a) := by
      intro a b
      simp only [Bool.or_eq_true, decide_eq_true_eq]
      exact Int.le_total a.id b.id
    have hs := List.sorted_mergeSort htrans htotal
      (arrival.map (fun e => Processing.process_single_email e (catCall e) (actCall e) parse))
    exact hs.imp (fun h => by simpa using h)
  · have hp := List.mergeSort_perm
      (arrival.map (fun e => Processing.process_single_email e (catCall e) (actCall e) parse))
      (fun a b => a.id ≤ b.id)
    have hmap := hp.map (fun r : EnrichedRecord => r.id)
    have heq : (arrival.map
        (fun e => Processing.process_single_email e (catCall e) (actCall e) parse)).map
          (fun r : EnrichedRecord => r.id) = arrival.map (fun e => e.id) := by
      simp only [List.map_map]
      apply List.map_congr_left
      intro e _
      exact (process_single_email_fields e (catCall e) (actCall e) parse).1
    rw [heq] at hmap
    exact hmap.trans (hperm.map (fun e => e.id))

/-- Witness for claim C1: a concrete two-email batch, delivered to the accumulator in
reversed order, satisfies the hypotheses and hence the conclusion. -/
theorem batch_sorted_and_id_preserving_witness :
    ([emailB, emailA].Perm [emailA, emailB] ∧ [emailA, emailB] ≠ []) ∧
    ∃ out : List EnrichedRecord,
      (Processing.run_ingestion_pipeline [emailA, emailB] [emailB, emailA]
          okCall okActions parseNone []).result = .ok out ∧
      out.Pairwise (fun a b => a.id ≤ b.id) ∧
      (out.map (fun r => r.id)).Perm ([emailA, emailB].map (fun e => e.id)) ∧
      (Processing.run_ingestion_pipeline [emailA, emailB] [emailB, emailA]
          okCall okActions parseNone []).store_after = out ∧
      (Processing.run_ingestion_pipeline [emailA, emailB] [emailB, emailA]
          okCall okActions parseNone []).save_called = true :=
  ⟨⟨by decide, by decide⟩,
   batch_sorted_and_id_preserving [emailA, emailB] [emailB, emailA] okCall okActions parseNone []
     (by decide) (by decide)⟩

set_option maxHeartbeats 2000000 in
/-- Claim C2: the priority score is computed additively from 0 exactly as specified
(+3 for a category containing important, +3 for to-do or todo, -1 for spam or
newsletter, +3 for an urgent keyword in subject and body, +2 for a deadline keyword,
+1 for a meeting keyword, plus min 3 of the action count derived from a structured
tasks list or a bare list and otherwise 0), all substring checks case-insensitive,
missing fields treated as empty, labels HIGH at score 7 and MEDIUM at 4; the To-Do
scenario with two extracted tasks scores 7 and is HIGH, and the Newsletter scenario
with no keywords and no actions scores -1 and is LOW. -/
theorem priority_row_matches_spec :
    (∀ (category subject body : Option String) (actions : Json),
      Dashboard.compute_priority_row category subject body (Dashboard.count_actions actions)
        = (Spec.specScore category subject body actions,
           Spec.specLabel (Spec.specScore category subject body actions))) ∧
    Dashboard.compute_priority_row (some "To-Do update")
      (some "Please submit report by Friday") (some "...")
      (Dashboard.count_actions twoTasksJson) = (7, "HIGH") ∧
    Dashboard.compute_priority_row (some "Newsletter")
      (some "Weekly digest") (some "Enjoy our latest stories")
      (Dashboard.count_actions Json.null) = (-1, "LOW") := by
  refine ⟨?_, by decide, by decide⟩
  intro c s b a
  have hscore : Dashboard.priority_score c s b (Dashboard.count_actions a)
      = Spec.specScore c s b a := by
    simp only [Dashboard.priority_score, Spec.specScore]
    split_ifs <;> omega
  have hlabel : ∀ x : Int, Dashboard.priority_label x = Spec.specLabel x := fun _ => rfl
  simp [Dashboard.compute_priority_row, hscore, hlabel]

/-- Counterexample to claim C3: the ad hoc single-item operations (ask, reply-draft)
do not reuse the retrying completion client: on an HTTP 429 followed by an available
200, the agent's client makes exactly one request and raises immediately with no pause
instead of retrying, while the batch client retries once and succeeds; moreover the
batch client's error for a non-429 failure carries only the HTTP status, not the
response body text. -/
theorem adhoc_client_no_retry_counterexample :
    (Agent.call_openrouter resp429then200).requests = 1 ∧
    (Agent.call_openrouter resp429then200).result
        = Except.error "OpenRouter Error 429: rate limited" ∧
    (Agent.call_openrouter resp429then200).sleeps = [] ∧
    (Processing.call_openrouter resp429then200).requests = 2 ∧
    (Processing.call_openrouter resp429then200).result = Except.ok "hello" ∧
    (Processing.call_openrouter resp500).result = Except.error "API Error 500" ∧
    strContains "API Error 500" "Internal Server Error" = false :=
  ⟨rfl, rfl, rfl, rfl, rfl, rfl, by decide⟩

/-- Claim C3 amended: the batch pipeline's completion client retries exactly once
total (on 429 it pauses 2s and retries, on a timeout it pauses 1s and retries) and
makes at most two outbound requests, raising immediately on any other non-200 with an
error carrying the HTTP status but not the response body; the ad hoc single-item
operations use a separate client that always makes exactly one request, never retries,
and raises on any non-200 with an error carrying both the status and the body text. -/
theorem completion_clients_retry_policy :
    ∀ r : Nat → Outcome,
      (Processing.call_openrouter r).requests ≤ 2 ∧
      (Agent.call_openrouter r).requests = 1 ∧
      (∀ c, r 0 = .success c →
        Processing.call_openrouter r = ⟨.ok (pyStrip c), 1, []⟩ ∧
        Agent.call_openrouter r = ⟨.ok (pyStrip c), 1, []⟩) ∧
      (∀ s b, r 0 = .httpError s b → s ≠ 429 →
        Processing.call_openrouter r = ⟨.error ("API Error " ++ toString s), 1, []⟩) ∧
      (∀ b, r 0 = .httpError 429 b →
        (Processing.call_openrouter r).requests = 2 ∧
        (Processing.call_openrouter r).sleeps.head? = some 2 ∧
        (∀ c, r 1 = .success c →
          (Processing.call_openrouter r).result = .ok (pyStrip c))) ∧
      (r 0 = .timeout →
        (Processing.call_openrouter r).requests = 2 ∧
        (Processing.call_openrouter r).sleeps.head? = some 1 ∧
        (∀ c, r 1 = .success c →
          (Processing.call_openrouter r).result = .ok (pyStrip c))) ∧
      (∀ s b, r 0 = .httpError s b →
        Agent.call_openrouter r
          = ⟨.error ("OpenRouter Error " ++ toString s ++ ": " ++ b), 1, []⟩) := by
  intro r
  refine ⟨?_, ?_, ?_, ?_, ?_, ?_, ?_⟩
  · rcases h0 : r 0 with c | ⟨s, b⟩ | _
    · simp [Processing.call_openrouter, h0]
    · by_cases hs : s = 429
      · subst hs
        rcases h1 : r 1 with c2 | ⟨s2, b2⟩ | _
        · simp [Processing.call_openrouter, h0, h1]
        · by_cases hs2 : s2 = 429
          · subst hs2; simp [Processing.call_openrouter, h0, h1]
          · simp [Processing.call_openrouter, h0, h1, hs2]
        · simp [Processing.call_openrouter, h0, h1]
      · simp [Processing.call_openrouter, h0, hs]
    · rcases h1 : r 1 with c2 | ⟨s2, b2⟩ | _
      · simp [Processing.call_openrouter, h0, h1]
      · by_cases hs2 : s2 = 429
        · subst hs2; simp [Processing.call_openrouter, h0, h1]
        · simp [Processing.call_openrouter, h0, h1, hs2]
      · simp [Processing.call_openrouter, h0, h1]
  · rcases h0 : r 0 with c | ⟨s, b⟩ | _ <;> simp [Agent.call_openrouter, h0]
  · intro c h0
    exact ⟨by simp [Processing.call_openrouter, h0], by simp [Agent.call_openrouter, h0]⟩
  · intro s b h0 hs
    simp [Processing.call_openrouter, h0, hs]
  · intro b h0
    refine ⟨?_, ?_, ?_⟩
    · rcases h1 : r 1 with c2 | ⟨s2, b2⟩ | _
      · simp [Processing.call_openrouter, h0, h1]
      · by_cases hs2 : s2 = 429
        · subst hs2; simp [Processing.call_openrouter, h0, h1]
        · simp [Processing.call_openrouter, h0, h1, hs2]
      · simp [Processing.call_openrouter, h0, h1]
    · rcases h1 : r 1 with c2 | ⟨s2, b2⟩ | _
      · simp [Processing.call_openrouter, h0, h1]
      · by_cases hs2 : s2 = 429
        · subst hs2; simp [Processing.call_openrouter, h0, h1]
        · simp [Processing.call_openrouter, h0, h1, hs2]
      · simp [Processing.call_openrouter, h0, h1]
    · intro c h1
      simp [Processing.call_openrouter, h0, h1]
  · intro h0
    refine ⟨?_, ?_, ?_⟩
    · rcases h1 : r 1 with c2 | ⟨s2, b2⟩ | _
      · simp [Processing.call_openrouter, h0, h1]
      · by_cases hs2 : s2 = 429
        · subst hs2; simp [Processing.call_openrouter, h0, h1]
        · simp [Processing.call_openrouter, h0, h1, hs2]
      · simp [Processing.call_openrouter, h0, h1]
    · rcases h1 : r 1 with c2 | ⟨s2, b2⟩ | _
      · simp [Processing.call_openrouter, h0, h1]
      · by_cases hs2 : s2 = 429
        · subst hs2; simp [Processing.call_openrouter, h0, h1]
        · simp [Processing.call_openrouter, h0, h1, hs2]
      · simp [Processing.call_openrouter, h0, h1]
    · intro c h1
      simp [Processing.call_openrouter, h0, h1]
  · intro s b h0
    simp [Agent.call_openrouter, h0]

/-- Witness for the amended claim C3: on a concrete 429-then-200 environment the batch
client performs two requests with a 2s pause and succeeds, while the agent client
performs one request and raises with status and body in the message. -/
theorem completion_clients_retry_policy_witness :
    (Processing.call_openrouter resp429then200).requests = 2 ∧
    (Processing.call_openrouter resp429then200).sleeps.head? = some 2 ∧
    (Processing.call_openrouter resp429then200).result = .ok (pyStrip "hello") ∧
    Agent.call_openrouter resp429then200
      = ⟨.error ("OpenRouter Error " ++ toString 429 ++ ": " ++ "rate limited"), 1, []⟩ := by
  have h := completion_clients_retry_policy resp429then200
  have h429 := h.2.2.2.2.1 "rate limited" rfl
  exact ⟨h429.1, h429.2.1, h429.2.2 "hello" rfl, h.2.2.2.2.2.2 429 "rate limited" rfl⟩

/-- Claim C4: the per-item enricher never raises (it is a total function); every
record it returns with status error has category Error and a non-empty string actions
diagnostic; an exception from either completion call yields such a record embedding
the original error text; and an HTTP 500 response from the completion service yields a
diagnostic that mentions 500. -/
theorem enricher_error_boundary :
    ∀ (email : Email) (catCall actCall : Except String String) (parse : String → Option Json),
      ((Processing.process_single_email email catCall actCall parse).status = "error" →
        (Processing.process_single_email email catCall actCall parse).category = "Error" ∧
        ∃ s, (Processing.process_single_email email catCall actCall parse).actions = Json.str s
          ∧ s ≠ "") ∧
      (∀ e, catCall = .error e →
        (Processing.process_single_email email catCall actCall parse).status = "error" ∧
        (Processing.process_single_email email catCall actCall parse).actions
            = Json.str ("Processing failed: " ++ e) ∧
        strContains ("Processing failed: " ++ e) e = true) ∧
      (∀ c e, catCall = .ok c → c ≠ "" → actCall = .error e →
        (Processing.process_single_email email catCall actCall parse).status = "error" ∧
        (Processing.process_single_email email catCall actCall parse).actions
            = Json.str ("Processing failed: " ++ e) ∧
        strContains ("Processing failed: " ++ e) e = true) ∧
      ((Processing.process_single_email email
          (Processing.call_openrouter resp500).result actCall parse).status = "error" ∧
       (Processing.process_single_email email
          (Processing.call_openrouter resp500).result actCall parse).actions
            = Json.str ("Processing failed: " ++ "API Error 500") ∧
       strContains ("Processing failed: " ++ "API Error 500") "500" = true) := by
  intro email catCall actCall parse
  refine ⟨?_, ?_, ?_, ?_, ?_, ?_⟩
  · intro hstatus
    rcases hcat : Processing.categorize_email catCall with e | cat
    · simp only [Processing.process_single_email, hcat]
      exact ⟨trivial, "Processing failed: " ++ e, rfl, prepend_diag_ne_empty e⟩
    · rcases hact : Processing.extract_actions parse actCall with e2 | acts
      · simp only [Processing.process_single_email, hcat, hact]
        exact ⟨trivial, "Processing failed: " ++ e2, rfl, prepend_diag_ne_empty e2⟩
      · simp [Processing.process_single_email, hcat, hact] at hstatus
  · intro e he
    subst he
    exact ⟨rfl, rfl, strContains_append_right "Processing failed: " e⟩
  · intro c e hc hne ha
    subst hc
    subst ha
    have hemp : c.isEmpty = false := by
      rw [Bool.eq_false_iff]
      intro hempty
      exact hne ((String.isEmpty_iff c).mp hempty)
    refine ⟨?_, ?_, strContains_append_right "Processing failed: " e⟩ <;>
      simp [Processing.process_single_email, Processing.categorize_email, splitlinesHead,
            Processing.extract_actions, hemp]
  · rfl
  · rfl
  · decide

/-- Witness for claim C4: a concrete enrichment whose categorization call failed with
an HTTP 500 message yields the error record with the diagnostic embedding the text. -/
theorem enricher_error_boundary_witness :
    (Processing.process_single_email email0 (.error "API Error 500") (.ok "[]") parse0).status
        = "error" ∧
    (Processing.process_single_email email0 (.error "API Error 500") (.ok "[]") parse0).actions
        = Json.str ("Processing failed: " ++ "API Error 500") ∧
    strContains ("Processing failed: " ++ "API Error 500") "API Error 500" = true :=
  (enricher_error_boundary email0 (.error "API Error 500") (.ok "[]") parse0).2.1
    "API Error 500" rfl

/-- Counterexample to claim C5: both completion calls succeeding does not guarantee a
success record: when the categorization output is the empty string, splitlines()[0]
raises IndexError inside the enricher and the returned record has status error. -/
theorem enricher_empty_output_counterexample :
    (Processing.process_single_email email0 (.ok "") (.ok "[]") parse0).status = "error" ∧
    (Processing.process_single_email email0 (.ok "") (.ok "[]") parse0).status ≠ "success" :=
  ⟨rfl, by decide⟩

/-- Claim C5 amended: for every email whose two completion calls succeed and whose
categorization output is non-empty, the enricher returns a record with status success,
category the first line of the categorization output trimmed, and actions the
extraction output stripped of surrounding code-fence markers then JSON-parsed, the raw
cleaned text being kept verbatim as actions when the parse fails — still with status
success, a parse failure never producing an error record. -/
theorem enricher_success_shape :
    ∀ (email : Email) (catOut actOut : String) (parse : String → Option Json),
      catOut ≠ "" →
      Processing.process_single_email email (.ok catOut) (.ok actOut) parse =
        { id := email.id, sender := email.sender, subject := email.subject,
          timestamp := email.timestamp, body := email.body,
          category := pyStrip (first_line catOut),
          actions := Processing.clean_actions parse actOut,
          status := "success" } := by
  intro email catOut actOut parse h
  have hemp : catOut.isEmpty = false := by
    rw [Bool.eq_false_iff]
    intro hempty
    exact h ((String.isEmpty_iff catOut).mp hempty)
  simp [Processing.process_single_email, Processing.categorize_email, splitlinesHead,
        Processing.extract_actions, hemp]

/-- Witness for the amended claim C5: a concrete two-line categorization output and an
unparseable extraction output yield a success record keeping the raw text. -/
theorem enricher_success_shape_witness :
    (("Work\nextra notes" : String) ≠ "") ∧
    Processing.process_single_email email0 (.ok "Work\nextra notes") (.ok "not json") parseNone =
      { id := email0.id, sender := email0.sender, subject := email0.subject,
        timestamp := email0.timestamp, body := email0.body,
        category := pyStrip (first_line "Work\nextra notes"),
        actions := Processing.clean_actions parseNone "not json",
        status := "success" } :=
  ⟨by decide, enricher_success_shape email0 "Work\nextra notes" "not json" parseNone (by decide)⟩

/-- Claim C6: loading the result store and the draft store returns an empty sequence
for every missing, blank or unparseable persisted file, and never raises (both loaders
are total functions of the file state). -/
theorem store_loads_tolerate_missing_and_corrupt :
    ∀ (parse : String → Option Json) (c : String),
      Processing.load_processed parse FileState.missing = Json.arr [] ∧
      Drafts.load_drafts parse FileState.missing = Json.arr [] ∧
      (pyStrip c = "" → Processing.load_processed parse (FileState.present c) = Json.arr []) ∧
      (parse (pyStrip c) = none →
        Processing.load_processed parse (FileState.present c) = Json.arr []) ∧
      (parse c = none → Drafts.load_drafts parse (FileState.present c) = Json.arr []) := by
  intro parse c
  refine ⟨rfl, rfl, ?_, ?_, ?_⟩
  · intro h
    simp [Processing.load_processed, h]
  · intro h
    by_cases hblank : pyStrip c == ""
    · simp [Processing.load_processed, hblank]
    · simp [Processing.load_processed, hblank, h]
  · intro h
    simp [Drafts.load_drafts, h]

/-- Witness for claim C6: concrete missing, blank and corrupt files all load as the
empty collection. -/
theorem store_loads_witness :
    Processing.load_processed parseNone FileState.missing = Json.arr [] ∧
    Drafts.load_drafts parseNone FileState.missing = Json.arr [] ∧
    Processing.load_processed parseNone (FileState.present "   ") = Json.arr [] ∧
    Processing.load_processed parseNone (FileState.present "corrupt @@@") = Json.arr [] ∧
    Drafts.load_drafts parseNone (FileState.present "corrupt @@@") = Json.arr [] := by
  have h1 := store_loads_tolerate_missing_and_corrupt parseNone "   "
  have h2 := store_loads_tolerate_missing_and_corrupt parseNone "corrupt @@@"
  exact ⟨h1.1, h1.2.1, h1.2.2.1 (by decide), h2.2.2.2.1 rfl, h2.2.2.2.2 rfl⟩

/-- Claim C7: an empty input email collection makes the batch run fail with an error
naming the no-input condition, performing no per-item work. -/
theorem empty_batch_raises :
    ∀ (arrival : List Email) (catCall actCall : Email → Except String String)
      (parse : String → Option Json) (store0 : List EnrichedRecord),
      Processing.run_ingestion_pipeline [] arrival catCall actCall parse store0 =
        { result := .error "No emails found. Put data/mock_inbox.json first.",
          save_called := false, store_after := store0, items_processed := 0 } :=
  fun _ _ _ _ _ => rfl

/-- Counterexample to claim C8: load_prompts performs no per-key fallback: a persisted
prompts file missing two of the three keys is returned verbatim, so the returned
PromptSet lacks those keys even though the built-in defaults contain them. -/
theorem prompts_no_per_key_fallback_counterexample :
    getKey (Prompts.load_prompts (some partialPromptsJson)) "action_item_prompt" = none ∧
    getKey (Prompts.load_prompts (some partialPromptsJson)) "auto_reply_prompt" = none ∧
    (getKey Prompts.DEFAULT_PROMPTS "action_item_prompt").isSome = true :=
  ⟨rfl, rfl, rfl⟩

/-- Claim C8 amended: when no persisted prompts file exists, load_prompts returns the
built-in defaults, which contain all three keys; when a persisted file exists, its
parsed content is returned verbatim with no per-key fallback, so keys missing from the
file stay missing in the result. -/
theorem prompts_defaults_or_verbatim :
    (∀ j : Json, Prompts.load_prompts (some j) = j) ∧
    Prompts.load_prompts none = Prompts.DEFAULT_PROMPTS ∧
    (getKey Prompts.DEFAULT_PROMPTS "categorization_prompt").isSome = true ∧
    (getKey Prompts.DEFAULT_PROMPTS "action_item_prompt").isSome = true ∧
    (getKey Prompts.DEFAULT_PROMPTS "auto_reply_prompt").isSome = true :=
  ⟨fun _ => rfl, rfl, rfl, rfl, rfl⟩

/-- Claim C9: the enriched record carries the input email's id, sender, subject,
timestamp and body unchanged, in both the success branch and the error branch. -/
theorem enricher_preserves_email_fields :
    ∀ (email : Email) (catCall actCall : Except String String) (parse : String → Option Json),
      (Processing.process_single_email email catCall actCall parse).id = email.id ∧
      (Processing.process_single_email email catCall actCall parse).sender = email.sender ∧
      (Processing.process_single_email email catCall actCall parse).subject = email.subject ∧
      (Processing.process_single_email email catCall actCall parse).timestamp = email.timestamp ∧
      (Processing.process_single_email email catCall actCall parse).body = email.body :=
  fun email catCall actCall parse => process_single_email_fields email catCall actCall parse

/-- Claim C10: a batch run that fails on an empty input collection raises before any
write to the result store: save_processed is never called on that path and the
previously persisted content is left unchanged. -/
theorem empty_batch_leaves_store_unchanged :
    ∀ (arrival : List Email) (catCall actCall : Email → Except String String)
      (parse : String → Option Json) (store0 : List EnrichedRecord),
      (Processing.run_ingestion_pipeline [] arrival catCall actCall parse store0).save_called
          = false ∧
      (Processing.run_ingestion_pipeline [] arrival catCall actCall parse store0).store_after
          = store0 :=
  fun _ _ _ _ _ => ⟨rfl, rfl⟩

end OceanAi
